import Mathlib

/-!
Verification of the paperfig figure orchestrator (src/paperfig/figure.py):
a shallow embedding of the Fig class — JSON spec validation, the three-tier
renderer resolution chain, and the create_pdf / multi composition pipeline —
together with theorems settling the specification's claims about it.
-/

namespace Paperfig

/-- JSON values as Python's json module materialises them: objects are
insertion-ordered key/value association lists (Python dicts preserve
insertion order), and numeric literals are modelled as integers (the only
numerics the schema reads, row and column, are integers). -/
inductive JValue where
  | null : JValue
  | bool (b : Bool) : JValue
  | int (n : Int) : JValue
  | str (s : String) : JValue
  | arr (elems : List JValue) : JValue
  | obj (entries : List (String × JValue)) : JValue

/-- Lookup in an insertion-ordered dictionary (Python `d[k]` / `d.get(k)`). -/
def dictGet {α : Type} : List (String × α) → String → Option α
  | [], _ => none
  | (k, v) :: rest, key => if key = k then some v else dictGet rest key

/-- Python dict assignment `d[k] = v`: an existing key keeps its position and
gets the new value; a new key is appended at the end. -/
def dictInsert {α : Type} (d : List (String × α)) (k : String) (v : α) :
    List (String × α) :=
  match dictGet d k with
  | some _ => d.map (fun p => if p.1 = k then (k, v) else p)
  | none => d ++ [(k, v)]

/-- Python `node.get(key)` on a parsed JSON value: a dictionary lookup when
the value is an object, None otherwise. -/
def jGet : JValue → String → Option JValue
  | .obj entries, key => dictGet entries key
  | _, _ => none

/-- FigError: the single domain exception class of the module. It subclasses
Exception and declares no fields of its own, so a raised error carries
nothing beyond its message text. -/
structure FigError where
  msg : String
deriving DecidableEq

mutual
/-- Python repr of a JSON-parsed value, as an f-string `{t!r}` renders it. -/
def pyRepr : JValue → String
  | .null => "None"
  | .bool b => if b then "True" else "False"
  | .int n => toString n
  | .str s => "'" ++ s ++ "'"
  | .arr elems => "[" ++ pyReprList elems ++ "]"
  | .obj entries => "\x7b" ++ pyReprEntries entries ++ "\x7d"

/-- repr of the elements of a Python list, comma separated. -/
def pyReprList : List JValue → String
  | [] => ""
  | [v] => pyRepr v
  | v :: rest => pyRepr v ++ ", " ++ pyReprList rest

/-- repr of the items of a Python dict, comma separated. -/
def pyReprEntries : List (String × JValue) → String
  | [] => ""
  | [(k, v)] => "'" ++ k ++ "': " ++ pyRepr v
  | (k, v) :: rest => "'" ++ k ++ "': " ++ pyRepr v ++ ", " ++ pyReprEntries rest
end

/-- repr of an optional value, `None` for a missing key. -/
def pyReprOpt : Option JValue → String
  | none => "None"
  | some v => pyRepr v

/-! The raise sites of figure.py, each as the FigError value it constructs. -/

/-- _validate_json: the root of the document is not a dict. -/
def figErrRootNotObj : FigError :=
  ⟨"Root of JSON must be an object mapping id -> figure spec."⟩

/-- _validate_json: a figure node is not a dict. -/
def figErrNodeNotObj (idx : String) : FigError :=
  ⟨"Figure '" ++ idx ++ "' spec must be an object."⟩

/-- _validate_json: a figure node has no string "type" field. -/
def figErrNoTypeField (idx : String) : FigError :=
  ⟨"Figure '" ++ idx ++ "' must have a string 'type' field."⟩

/-- _validate_json and Fig.multi: a multi node's "figures" is not a dict. -/
def figErrMultiNoFigures (idx : String) : FigError :=
  ⟨"Figure '" ++ idx ++ "': multi requires 'figures' object."⟩

/-- _validate_json: a sub-figure value is not a dict. -/
def figErrSubNotObj (idx k : String) : FigError :=
  ⟨"Figure '" ++ idx ++ "': sub-figure '" ++ k ++ "' must be object."⟩

/-- _validate_json: a sub-figure has no string "type". -/
def figErrSubNoType (idx k : String) : FigError :=
  ⟨"Figure '" ++ idx ++ "': sub-figure '" ++ k ++ "' must have string 'type'."⟩

/-- _validate_json: a multi node misses the key "row" or "column". -/
def figErrMultiRequires (idx key : String) : FigError :=
  ⟨"Figure '" ++ idx ++ "': multi requires '" ++ key ++ "'."⟩

/-- create_pdf: an entry's "type" is not a string at execution time. -/
def figErrInvalidType (idx rep : String) : FigError :=
  ⟨"Figure '" ++ idx ++ "' has invalid 'type': " ++ rep⟩

/-- create_pdf: no tier of the resolution chain yielded a renderer. -/
def figErrTypeUnresolved (t idx : String) : FigError :=
  ⟨"type '" ++ t ++ "' not defined/resolvable for figure '" ++ idx ++ "'"⟩

/-- _resolve_renderer: an exception inside the dynamic-import try block,
wrapped with the unresolved type name and the exception's text. -/
def figErrImportRenderer (typeName ex : String) : FigError :=
  ⟨"Failed to import renderer '" ++ typeName ++ "': " ++ ex⟩

/-- create_pdf: the composite PDF of a multi entry does not exist after
Fig.multi returned. -/
def figErrCompositeNotProduced (idx path : String) : FigError :=
  ⟨"Composite PDF not produced for '" ++ idx ++ "': " ++ path⟩

/-- create_pdf: a renderer returned but the expected artifact is missing. -/
def figErrArtifactNotFound (path : String) : FigError :=
  ⟨"Renderer completed but expected file not found: " ++ path⟩

/-- create_pdf: the zero-pages check after the loop. -/
def figErrNoFigures : FigError :=
  ⟨"No figures were produced; nothing to concatenate."⟩

/-- create_pdf: the final concatenation collaborator raised. -/
def figErrConcatFailed (ex : String) : FigError :=
  ⟨"Concatenation failed: " ++ ex⟩

/-- Fig.multi: "row" or "column" is not an integer. -/
def figErrRowColNotInt (parent : String) : FigError :=
  ⟨"Figure '" ++ parent ++ "': 'row' and 'column' must be integers."⟩

/-- Fig.multi: a sub-figure's "type" is not a string at execution time. -/
def figErrMultiTypeInvalid (parent idx : String) : FigError :=
  ⟨"Figure '" ++ parent ++ "': sub-figure '" ++ idx ++ "' has invalid 'type'."⟩

/-- Fig.multi: no tier of the resolution chain yielded a renderer. -/
def figErrTypeNotDefinedMulti (t idx : String) : FigError :=
  ⟨"type '" ++ t ++ "' not defined in multi() for '" ++ idx ++ "'"⟩

/-- Fig.multi: a sub-figure renderer returned but its artifact is missing. -/
def figErrSubArtifactNotFound (path : String) : FigError :=
  ⟨"Sub-figure renderer completed but expected file not found: " ++ path⟩

/-- Fig.multi: the composite concatenation collaborator raised. -/
def figErrMultiConcatFailed (parent ex : String) : FigError :=
  ⟨"Concatenation for multi '" ++ parent ++ "' failed: " ++ ex⟩

/-! _validate_json, split along the source's loops. The source also checks
`isinstance(idx, str)` for every key; keys of a JSON-parsed dict are always
strings (and are String in this model), so that check never fires. -/

/-- The inner loop of _validate_json over a multi node's figures items: each
sub-figure must be a dict with a string "type". -/
def validateSubs (idx : String) : List (String × JValue) → Except FigError Unit
  | [] => .ok ()
  | (k, sub) :: rest =>
    match sub with
    | .obj _ =>
      match jGet sub "type" with
      | some (.str _) => validateSubs idx rest
      | _ => .error (figErrSubNoType idx k)
    | _ => .error (figErrSubNotObj idx k)

/-- The final loop of _validate_json for a multi node: the keys "row" and
"column" must both be present, checked in that order. -/
def validateRowCol (idx : String) (node : JValue) : Except FigError Unit :=
  if (jGet node "row").isSome then
    if (jGet node "column").isSome then .ok ()
    else .error (figErrMultiRequires idx "column")
  else .error (figErrMultiRequires idx "row")

/-- The body of the _validate_json loop for one (idx, node) item. -/
def validateNode (idx : String) (node : JValue) : Except FigError Unit :=
  match node with
  | .obj _ =>
    match jGet node "type" with
    | some (.str t) =>
      if t = "multi" then
        match jGet node "figures" with
        | some (.obj figs) =>
          match validateSubs idx figs with
          | .ok _ => validateRowCol idx node
          | .error e => .error e
        | _ => .error (figErrMultiNoFigures idx)
      else .ok ()
    | _ => .error (figErrNoTypeField idx)
  | _ => .error (figErrNodeNotObj idx)

/-- The _validate_json loop over self.list.items(). -/
def validateEntries : List (String × JValue) → Except FigError Unit
  | [] => .ok ()
  | (idx, node) :: rest =>
    match validateNode idx node with
    | .ok _ => validateEntries rest
    | .error e => .error e

/-- Fig._validate_json on the parsed document. -/
def validateJson : JValue → Except FigError Unit
  | .obj entries => validateEntries entries
  | _ => .error figErrRootNotObj

/-- Fig.load_json past the file and parse stages: the parsed document is
stored as self.list unchanged, then _validate_json runs over it. The
file-missing and JSON-decode failures concern the filesystem and the
external parser; the loaded tree itself is the parsed value untransformed. -/
def loadJson (content : JValue) : Except FigError JValue :=
  match validateJson content with
  | .ok _ => .ok content
  | .error e => .error e

/-- Fig.save_json: json.dump writes self.list itself (indent and
ensure_ascii only affect surface text); the document written back is the
in-memory tree with every field and the insertion order of every object
intact, which in this model is the JValue unchanged. -/
def saveJson (tree : JValue) : Except FigError JValue := .ok tree

/-! The resolver, the renderer capability and the build state. -/

/-- The set of file paths that exist. -/
abbrev FS := List String

/-- A renderer capability, called `renderer(index, data, verbose=verbose)`:
it may rewrite the filesystem and returns an opaque result of type R. -/
structure RendererM (R : Type) where
  run : String → JValue → Int → FS → FS × R

/-- The external collaborator pdfgridcat.concat_pdf_pages, called with
(input_files, output_file, col, row) against the filesystem; an error is the
text of the exception it raises. -/
structure ConcatM where
  run : List String → String → Int → Int → FS → Except String FS

/-- A Python attribute as the resolver probes it with callable(): a callable
renderer, or a value that is not callable. -/
inductive PyAttr (R : Type) where
  | callableV (r : RendererM R)
  | notCallable

/-- A loadable module for dynamic address resolution: getattrF models
getattr(mod, name), giving the attribute or the text of the exception the
lookup raises. -/
structure PyModule (R : Type) where
  getattrF : String → Except String (PyAttr R)

/-- The import environment: importModule models importlib.import_module,
giving the module or the text of the exception the import raises. -/
structure DynEnv (R : Type) where
  importModule : String → Except String (PyModule R)

/-- One object yielded by importlib.metadata.entry_points for the group
"paperfig.renderers": its name, and what ep.load() does — none models a
raised exception, some gives the loaded attribute. -/
structure EntryPointM (R : Type) where
  name : String
  load : Option (PyAttr R)

/-- The ResultsMap self.result: figure id to the renderer's return value. -/
abbrev Results (R : Type) := List (String × R)

/-- The Fig instance state that create_pdf and the resolver read. A none
entryPoints models importlib.metadata.entry_points itself raising, which
the source swallows into an empty dict. -/
structure FigState (R : Type) where
  figDir : String
  pdfFilename : String
  verbose : Int
  function : List (String × RendererM R)
  entryPoints : Option (List (EntryPointM R))
  dyn : DynEnv R
  concat : ConcatM

/-- Fig.register: installs an explicit mapping entry in self.function. -/
def register {R : Type} (st : FigState R) (typeName : String)
    (r : RendererM R) : FigState R :=
  { st with function := dictInsert st.function typeName r }

/-- One iteration of the discovery loop in _load_entry_point_renderers: a
load that raises is skipped (continue), a value that is not callable is
skipped (the `if callable` guard), a callable is stored under the entry
point's name. -/
def epStep {R : Type} (acc : List (String × RendererM R)) (ep : EntryPointM R) :
    List (String × RendererM R) :=
  match ep.load with
  | none => acc
  | some .notCallable => acc
  | some (.callableV f) => dictInsert acc ep.name f

/-- Fig._load_entry_point_renderers: the dict of discovered renderers. The
source memoizes the result on the instance; this model computes the same
dict from the instance's entry-point listing. -/
def loadEntryPointRenderers {R : Type} :
    Option (List (EntryPointM R)) → List (String × RendererM R)
  | none => []
  | some eps => eps.foldl epStep []

/-- Split a character list at the first colon: the part before it and the
whole rest, none when no colon occurs. -/
def splitCharsAtColon : List Char → Option (List Char × List Char)
  | [] => none
  | c :: rest =>
    if c = ':' then some ([], rest)
    else
      match splitCharsAtColon rest with
      | none => none
      | some (pre, post) => some (c :: pre, post)

/-- Python `":" in type_name` and `type_name.split(":", 1)` combined: the
module reference and the attribute name when the separator occurs (the
split is at the first colon, the attribute part keeps any further colons),
none when the name has no separator. -/
def splitColon (s : String) : Option (String × String) :=
  match splitCharsAtColon s.toList with
  | none => none
  | some (pre, post) => some (⟨pre⟩, ⟨post⟩)

/-- The dynamic-address tier of _resolve_renderer: import the module and
fetch the attribute, wrapping any exception of the try block into a
FigError; an attribute that exists but is not callable falls through the
`if callable` guard to the final `return None`. -/
def resolveDynamic {R : Type} (st : FigState R) (typeName : String) :
    Except FigError (Option (RendererM R)) :=
  match splitColon typeName with
  | none => .ok none
  | some (modName, funcName) =>
    match st.dyn.importModule modName with
    | .error ex => .error (figErrImportRenderer typeName ex)
    | .ok md =>
      match md.getattrF funcName with
      | .error ex => .error (figErrImportRenderer typeName ex)
      | .ok (.callableV r) => .ok (some r)
      | .ok .notCallable => .ok none

/-- Fig._resolve_renderer: the registered dict first, then the discovered
entry points, then the dynamic address; none when no tier yields a hit. -/
def resolveRenderer {R : Type} (st : FigState R) (typeName : String) :
    Except FigError (Option (RendererM R)) :=
  match dictGet st.function typeName with
  | some r => .ok (some r)
  | none =>
    match dictGet (loadEntryPointRenderers st.entryPoints) typeName with
    | some r => .ok (some r)
    | none => resolveDynamic st typeName

/-! The composition engine: Fig.create_pdf and Fig.multi. -/

/-- Python isinstance(v, int) on an optional JSON-parsed value: True also
for booleans (bool subclasses int), False for a missing key (None). -/
def pyIsIntOpt : Option JValue → Bool
  | some (.int _) => true
  | some (.bool _) => true
  | _ => false

/-- The integer value Python sees where pyIsIntOpt holds. -/
def pyToInt : Option JValue → Int
  | some (.int n) => n
  | some (.bool b) => if b then 1 else 0
  | _ => 0

/-- The two concat_pdf_pages call sites of the source: the composite-page
call in Fig.multi, and the final-deliverable call in Fig.create_pdf. -/
inductive ConcatSite where
  | multiComposite : ConcatSite
  | finalDeliverable : ConcatSite
deriving DecidableEq

/-- Observable collaborator calls of one build: renderer invocations and
concat_pdf_pages calls with their arguments. -/
inductive Event where
  | render (idx : String) : Event
  | concatCall (site : ConcatSite) (inputs : List String) (output : String)
      (col : Int) (row : Int) : Event
deriving DecidableEq

/-- The ordered record of collaborator calls a build performed. -/
abbrev Trace := List Event

/-- The artifact path `self.fig_dir / f"fig{index}.pdf"`. -/
def expectedPath (figDir idx : String) : String :=
  figDir ++ "/fig" ++ idx ++ ".pdf"

/-- Python truthiness of the optional index argument of create_pdf: None
and the empty string are falsy. -/
def iaTruthy : Option String → Bool
  | none => false
  | some s => s != ""

/-- The filter at the top of the create_pdf loop:
`if index_argument and index_argument != index: continue`. -/
def skipEntry (ia : Option String) (idx : String) : Bool :=
  match ia with
  | none => false
  | some s => s != "" && s != idx

/-- The body of the sub-figure loop of Fig.multi for one (index, data) item:
type check, resolve, render, artifact check; the grown accumulators or the
FigError the source raises. -/
def stepSub {R : Type} (st : FigState R) (parent idx : String) (data : JValue)
    (fs : FS) (res : Results R) (files : List String) (tr : Trace) :
    Trace × Except FigError (FS × Results R × List String) :=
  match jGet data "type" with
  | some (.str t) =>
    match resolveRenderer st t with
    | .error e => (tr, .error e)
    | .ok none => (tr, .error (figErrTypeNotDefinedMulti t idx))
    | .ok (some r) =>
      let tr' := tr ++ [Event.render idx]
      let out := r.run idx data st.verbose fs
      let res' := dictInsert res idx out.2
      let expected := expectedPath st.figDir idx
      if expected ∈ out.1 then (tr', .ok (out.1, res', files ++ [expected]))
      else (tr', .error (figErrSubArtifactNotFound expected))
  | _ => (tr, .error (figErrMultiTypeInvalid parent idx))

/-- The sub-figure loop of Fig.multi over figs.items(). -/
def multiSubs {R : Type} (st : FigState R) (parent : String) :
    List (String × JValue) → FS → Results R → List String → Trace →
    Trace × Except FigError (FS × Results R × List String)
  | [], fs, res, files, tr => (tr, .ok (fs, res, files))
  | (idx, data) :: rest, fs, res, files, tr =>
    match stepSub st parent idx data fs res files tr with
    | (tr', .error e) => (tr', .error e)
    | (tr', .ok (fs', res', files')) => multiSubs st parent rest fs' res' files' tr'

/-- Fig.multi: check figures/row/column at use time, render every child in
spec order, then hand the children's artifact paths with the node's
(column, row) to concat_pdf_pages for the composite page; the child results
mapping is returned for the caller to merge. -/
def multiRun {R : Type} (st : FigState R) (parent : String) (fig : JValue)
    (fs : FS) (tr : Trace) : Trace × Except FigError (FS × Results R) :=
  match jGet fig "figures" with
  | some (.obj figs) =>
    let row := jGet fig "row"
    let col := jGet fig "column"
    if pyIsIntOpt row && pyIsIntOpt col then
      match multiSubs st parent figs fs [] [] tr with
      | (tr', .error e) => (tr', .error e)
      | (tr', .ok (fs', res, files)) =>
        let out := expectedPath st.figDir parent
        let tr'' := tr' ++
          [Event.concatCall .multiComposite files out (pyToInt col) (pyToInt row)]
        match st.concat.run files out (pyToInt col) (pyToInt row) fs' with
        | .error ex => (tr'', .error (figErrMultiConcatFailed parent ex))
        | .ok fs'' => (tr'', .ok (fs'', res))
    else (tr, .error (figErrRowColNotInt parent))
  | _ => (tr, .error (figErrMultiNoFigures parent))

/-- The body of the create_pdf loop for one item that is not skipped: type
check, then the multi branch (recurse, merge child results, require the
composite artifact) or the simple branch (resolve, render, require the
artifact). -/
def stepEntry {R : Type} (st : FigState R) (idx : String) (data : JValue)
    (fs : FS) (res : Results R) (pages : List String) (tr : Trace) :
    Trace × Except FigError (FS × Results R × List String) :=
  match jGet data "type" with
  | some (.str t) =>
    if t = "multi" then
      match multiRun st idx data fs tr with
      | (tr', .error e) => (tr', .error e)
      | (tr', .ok (fs', mres)) =>
        let res' := mres.foldl (fun acc kv => dictInsert acc kv.1 kv.2) res
        let parentPdf := expectedPath st.figDir idx
        if parentPdf ∈ fs' then (tr', .ok (fs', res', pages ++ [parentPdf]))
        else (tr', .error (figErrCompositeNotProduced idx parentPdf))
    else
      match resolveRenderer st t with
      | .error e => (tr, .error e)
      | .ok none => (tr, .error (figErrTypeUnresolved t idx))
      | .ok (some r) =>
        let tr' := tr ++ [Event.render idx]
        let out := r.run idx data st.verbose fs
        let res' := dictInsert res idx out.2
        let expected := expectedPath st.figDir idx
        if expected ∈ out.1 then (tr', .ok (out.1, res', pages ++ [expected]))
        else (tr', .error (figErrArtifactNotFound expected))
  | other => (tr, .error (figErrInvalidType idx (pyReprOpt other)))

/-- The create_pdf loop over self.list.items(), with the optional
single-target filter. -/
def goEntries {R : Type} (st : FigState R) (ia : Option String) :
    List (String × JValue) → FS → Results R → List String → Trace →
    Trace × Except FigError (FS × Results R × List String)
  | [], fs, res, pages, tr => (tr, .ok (fs, res, pages))
  | (idx, data) :: rest, fs, res, pages, tr =>
    if skipEntry ia idx then goEntries st ia rest fs res pages tr
    else
      match stepEntry st idx data fs res pages tr with
      | (tr', .error e) => (tr', .error e)
      | (tr', .ok (fs', res', pages')) => goEntries st ia rest fs' res' pages' tr'

/-- Fig.create_pdf: run the loop from an empty ResultsMap and page list,
then the zero-pages check, then — only when the index argument is falsy —
the final concatenation with col=1, row=1 into fig_dir/pdf_filename. The
idempotent directory creation and the logging of the source do not affect
this model. -/
def createPdf {R : Type} (st : FigState R) (tree : List (String × JValue))
    (ia : Option String) (fs : FS) :
    Trace × Except FigError (FS × Results R) :=
  match goEntries st ia tree fs [] [] [] with
  | (tr, .error e) => (tr, .error e)
  | (tr, .ok (fs', res, pages)) =>
    if pages.isEmpty then (tr, .error figErrNoFigures)
    else
      let outFile := st.figDir ++ "/" ++ st.pdfFilename
      if iaTruthy ia then (tr, .ok (fs', res))
      else
        let tr' := tr ++ [Event.concatCall .finalDeliverable pages outFile 1 1]
        match st.concat.run pages outFile 1 1 fs' with
        | .error ex => (tr', .error (figErrConcatFailed ex))
        | .ok fs'' => (tr', .ok (fs'', res))

/-! The acceptance condition of claim C1, stated in the claim's own words as
an executable predicate, to be compared against validateJson. -/

/-- The value is a JSON object (a mapping). -/
def isObjB : JValue → Bool
  | .obj _ => true
  | _ => false

/-- The value has a string "type" field. -/
def typeFieldIsStr (v : JValue) : Bool :=
  match jGet v "type" with
  | some (.str _) => true
  | _ => false

/-- The value's type is the string "multi". -/
def typeIsMulti (v : JValue) : Bool :=
  match jGet v "type" with
  | some (.str t) => decide (t = "multi")
  | _ => false

/-- Claim C1 on a sub-figure: an object with a string "type". -/
def claimSubOk (sub : JValue) : Bool := isObjB sub && typeFieldIsStr sub

/-- Claim C1 on a multi node's figures: a "figures" field that is an object
whose values are each objects with a string "type". -/
def claimFiguresOk (node : JValue) : Bool :=
  match jGet node "figures" with
  | some (.obj figs) => figs.all (fun kv => claimSubOk kv.2)
  | _ => false

/-- Claim C1 on one top-level node: an object with a string "type"; when the
type is "multi", additionally valid figures and both keys "row" and
"column" present. -/
def claimNodeOk (node : JValue) : Bool :=
  isObjB node && typeFieldIsStr node &&
    (!typeIsMulti node ||
      (claimFiguresOk node && (jGet node "row").isSome &&
        (jGet node "column").isSome))

/-- Claim C1 on the whole tree: the root is a mapping and every top-level
node passes claimNodeOk. -/
def claimAccepts : JValue → Bool
  | .obj entries => entries.all (fun kv => claimNodeOk kv.2)
  | _ => false

/-- The error e identifies the figure id idx: it is one of the per-node
raises of _validate_json, each of which interpolates idx into its message. -/
def errNamesFigure (e : FigError) (idx : String) : Prop :=
  e = figErrNodeNotObj idx ∨ e = figErrNoTypeField idx ∨
  e = figErrMultiNoFigures idx ∨ (∃ k, e = figErrSubNotObj idx k) ∨
  (∃ k, e = figErrSubNoType idx k) ∨ (∃ key, e = figErrMultiRequires idx key)

/-- Whether an event is the final-deliverable concatenation call of
create_pdf (as opposed to the composite call inside Fig.multi). -/
def isFinalConcat : Event → Bool
  | .concatCall .finalDeliverable _ _ _ _ => true
  | _ => false

/-! Concrete instances for witnesses and counterexamples. -/

/-- A renderer that always writes its expected artifact under the output
directory "out" and returns a tagged result. -/
def sampleRenderer : RendererM String :=
  ⟨fun idx _ _ fs => (fs ++ [expectedPath "out" idx], "res" ++ idx)⟩

/-- A renderer that returns without writing anything. -/
def silentRenderer : RendererM String := ⟨fun _ _ _ fs => (fs, "silent")⟩

/-- A concatenation collaborator that succeeds and writes its output file. -/
def sampleConcat : ConcatM := ⟨fun _ out _ _ fs => .ok (fs ++ [out])⟩

/-- A module whose attribute "f" exists but is not callable; every other
attribute lookup raises. -/
def sampleModule : PyModule String :=
  ⟨fun f => if f = "f" then .ok .notCallable else .error "attribute missing"⟩

/-- An import environment with the single loadable module "m". -/
def sampleDyn : DynEnv String :=
  ⟨fun m => if m = "m" then .ok sampleModule else .error "module not found"⟩

/-- A build state with a renderer registered for type "a", no discovered
entry points, and the sample import environment. -/
def sampleState : FigState String :=
  { figDir := "out", pdfFilename := "figures.pdf", verbose := 1,
    function := [("a", sampleRenderer)], entryPoints := some [],
    dyn := sampleDyn, concat := sampleConcat }

/-- A build state with a well-behaved renderer for type "a" and a renderer
for type "b" that never writes its artifact. -/
def sampleStateBad : FigState String :=
  { figDir := "out", pdfFilename := "figures.pdf", verbose := 1,
    function := [("a", sampleRenderer), ("b", silentRenderer)],
    entryPoints := some [], dyn := sampleDyn, concat := sampleConcat }

/-- The spec tree of claim C3:
one simple entry "1" and one multi entry "2" with children "2a", "2b". -/
def sampleTree : List (String × JValue) :=
  [("1", .obj [("type", .str "a")]),
   ("2", .obj [("type", .str "multi"), ("row", .int 1), ("column", .int 2),
     ("figures", .obj [("2a", .obj [("type", .str "a")]),
                       ("2b", .obj [("type", .str "a")])])])]

/-! Dictionary lemmas. -/

lemma dictGet_append {α : Type} (d₁ d₂ : List (String × α)) (k : String) :
    dictGet (d₁ ++ d₂) k =
      match dictGet d₁ k with
      | some v => some v
      | none => dictGet d₂ k := by
  induction d₁ with
  | nil => simp [dictGet]
  | cons hd rest ih =>
    obtain ⟨k', v'⟩ := hd
    by_cases h : k = k' <;> simp [dictGet, h, ih]

lemma dictGet_replace_ne {α : Type} (d : List (String × α)) (k n : String)
    (v : α) (hne : n ≠ k) :
    dictGet (d.map (fun p => if p.1 = k then (k, v) else p)) n = dictGet d n := by
  induction d with
  | nil => simp [dictGet]
  | cons hd rest ih =>
    obtain ⟨k', v'⟩ := hd
    by_cases h : k' = k
    · subst h
      simp only [List.map_cons, if_pos rfl]
      simp [dictGet, if_neg hne, hne, ih]
    · simp only [List.map_cons, if_neg h]
      by_cases h2 : n = k' <;> simp [dictGet, h2, ih]

lemma dictGet_replace_self {α : Type} (d : List (String × α)) (k : String)
    (v : α) (hsome : (dictGet d k).isSome) :
    dictGet (d.map (fun p => if p.1 = k then (k, v) else p)) k = some v := by
  induction d with
  | nil => simp [dictGet] at hsome
  | cons hd rest ih =>
    obtain ⟨k', v'⟩ := hd
    by_cases h : k' = k
    · subst h
      simp only [List.map_cons, if_pos rfl]
      simp [dictGet]
    · simp only [List.map_cons, if_neg h]
      have hk : k ≠ k' := fun hh => h hh.symm
      simp only [dictGet, if_neg hk] at hsome ⊢
      exact ih hsome

lemma dictGet_dictInsert_self {α : Type} (d : List (String × α)) (k : String)
    (v : α) : dictGet (dictInsert d k v) k = some v := by
  unfold dictInsert
  cases h : dictGet d k with
  | none => rw [dictGet_append]; simp [h, dictGet]
  | some w => exact dictGet_replace_self d k v (by simp [h])

lemma dictGet_dictInsert_ne {α : Type} (d : List (String × α)) (k n : String)
    (v : α) (hne : n ≠ k) :
    dictGet (dictInsert d k v) n = dictGet d n := by
  unfold dictInsert
  cases h : dictGet d k with
  | none =>
    rw [dictGet_append]
    cases h2 : dictGet d n <;> simp [dictGet, hne]
  | some w => exact dictGet_replace_ne d k n v hne

lemma dictGet_dictInsert_isSome {α : Type} (d : List (String × α))
    (k n : String) (v : α) :
    (∃ f, dictGet (dictInsert d k v) n = some f) ↔
      (n = k ∨ ∃ f, dictGet d n = some f) := by
  by_cases h : n = k
  · subst h; simp [dictGet_dictInsert_self]
  · rw [dictGet_dictInsert_ne d k n v h]
    simp [h]

/-! Claim C2: resolution priority. -/

/-- C2: a type name with an explicitly registered renderer resolves to that
renderer no matter what the discovered plugins or the import environment
hold; the three tiers are consulted in the fixed order registration,
discovery, dynamic address, and the first hit wins. -/
theorem spec_C2 {R : Type} (st : FigState R) (name : String) :
    (∀ r₀ : RendererM R,
      resolveRenderer (register st name r₀) name = .ok (some r₀)) ∧
    (∀ r, dictGet st.function name = some r →
      resolveRenderer st name = .ok (some r)) ∧
    (dictGet st.function name = none →
      ∀ r, dictGet (loadEntryPointRenderers st.entryPoints) name = some r →
        resolveRenderer st name = .ok (some r)) ∧
    (dictGet st.function name = none →
      dictGet (loadEntryPointRenderers st.entryPoints) name = none →
      resolveRenderer st name = resolveDynamic st name) := by
  refine ⟨?_, ?_, ?_, ?_⟩
  · intro r₀
    unfold resolveRenderer register
    simp [dictGet_dictInsert_self]
  · intro r h
    unfold resolveRenderer
    simp [h]
  · intro h1 r h2
    unfold resolveRenderer
    simp [h1, h2]
  · intro h1 h2
    unfold resolveRenderer
    simp [h1, h2]

/-- Witness for C2: with both an entry point and a loadable module named
like the registered type, resolution still returns the registered
renderer. -/
theorem spec_C2_witness :
    resolveRenderer (register sampleState "m:f" silentRenderer) "m:f" =
      .ok (some silentRenderer) :=
  (spec_C2 sampleState "m:f").1 silentRenderer

/-! Claim C4: save after load preserves the tree. -/

/-- C4: a document that loads and validates successfully is stored
untransformed, and saving writes back exactly that tree — every key, every
value (recognized by the schema or not) and the insertion order at every
level are preserved. -/
theorem spec_C4 (x t : JValue) (h : loadJson x = .ok t) :
    t = x ∧ saveJson t = .ok x := by
  unfold loadJson at h
  cases hv : validateJson x with
  | ok u => rw [hv] at h; cases h; exact ⟨rfl, rfl⟩
  | error e => rw [hv] at h; cases h

/-- Witness for C4 at the sample tree, which validates. -/
theorem spec_C4_witness :
    JValue.obj sampleTree = JValue.obj sampleTree ∧
      saveJson (JValue.obj sampleTree) = .ok (JValue.obj sampleTree) :=
  spec_C4 (JValue.obj sampleTree) (JValue.obj sampleTree) (by rfl)

/-! Claim C5: the zero-pages check. The source performs it before the
single-target early return, so it applies to every build mode. -/

/-- Counterexample to C5 as stated: a single-target build (target "2" over a
tree whose only entry is "1") is subject to the zero-pages check and fails
with the EmptyOutputError message, although the claim says a single-target
run is not subject to it. -/
theorem spec_C5_cex :
    (createPdf sampleState [("1", JValue.obj [("type", JValue.str "a")])]
      (some "2") []).2 = .error figErrNoFigures := by rfl

/-- C5 amended: the zero-pages check applies to every build, full or
single-target: whenever the loop finishes with an empty page list — the
empty tree in any mode, or a single-target run whose target matches no
entry — create_pdf fails with the EmptyOutputError message. -/
theorem spec_C5_amended {R : Type} (st : FigState R)
    (tree : List (String × JValue)) (ia : Option String) (fs : FS)
    (tr : Trace) (fs' : FS) (res : Results R)
    (h : goEntries st ia tree fs [] [] [] = (tr, .ok (fs', res, []))) :
    (createPdf st tree ia fs).2 = .error figErrNoFigures := by
  unfold createPdf
  rw [h]
  simp

/-- Witness for the amended C5: the empty tree fails the full build. -/
theorem spec_C5_witness :
    (createPdf sampleState [] none []).2 = .error figErrNoFigures :=
  spec_C5_amended sampleState [] none [] [] [] [] (by rfl)

/-! Claim C6: dynamic address resolution failures. The source raises for an
unloadable module and a missing attribute, but an attribute that exists and
is not callable falls through to `return None` instead of raising. -/

/-- Counterexample to C6 as stated: for the dynamically addressed name
"m:f", whose module loads and whose attribute exists but is not callable,
_resolve_renderer returns None (no error), although the claim says all
three cases fail with ResolutionError. -/
theorem spec_C6_cex : resolveRenderer sampleState "m:f" = .ok none := by rfl

/-- C6 amended: past the first two tiers, a type name containing the
reserved separator is split into a module reference and an attribute name;
resolution fails with the ResolutionError message if the module cannot be
loaded or the attribute is missing, while an attribute that exists but is
not callable makes resolution return "not found" without raising. -/
theorem spec_C6_amended {R : Type} (st : FigState R)
    (name modName funcName : String)
    (h1 : dictGet st.function name = none)
    (h2 : dictGet (loadEntryPointRenderers st.entryPoints) name = none)
    (hsplit : splitColon name = some (modName, funcName)) :
    (∀ ex, st.dyn.importModule modName = .error ex →
      resolveRenderer st name = .error (figErrImportRenderer name ex)) ∧
    (∀ md ex, st.dyn.importModule modName = .ok md →
      md.getattrF funcName = .error ex →
      resolveRenderer st name = .error (figErrImportRenderer name ex)) ∧
    (∀ md, st.dyn.importModule modName = .ok md →
      md.getattrF funcName = .ok .notCallable →
      resolveRenderer st name = .ok none) := by
  have hres : resolveRenderer st name = resolveDynamic st name := by
    unfold resolveRenderer
    simp [h1, h2]
  refine ⟨?_, ?_, ?_⟩
  · intro ex hmod
    rw [hres]
    unfold resolveDynamic
    simp [hsplit, hmod]
  · intro md ex hmod hattr
    rw [hres]
    unfold resolveDynamic
    simp [hsplit, hmod, hattr]
  · intro md hmod hattr
    rw [hres]
    unfold resolveDynamic
    simp [hsplit, hmod, hattr]

/-- Witness for the amended C6 at the sample environment: module "m" loads,
attribute "f" is not callable, resolution returns none. -/
theorem spec_C6_witness : resolveRenderer sampleState "m:f" = .ok none :=
  (spec_C6_amended sampleState "m:f" "m" "f" (by rfl) (by rfl)
    (by rfl)).2.2 sampleModule (by rfl) (by rfl)

/-! Claim C9: plugin discovery skips failing or non-callable entry points. -/

lemma epFold_get {R : Type} (eps : List (EntryPointM R))
    (acc : List (String × RendererM R)) (n : String) :
    (∃ f, dictGet (eps.foldl epStep acc) n = some f) ↔
      ((∃ f, dictGet acc n = some f) ∨
        ∃ ep ∈ eps, ep.name = n ∧ ∃ f, ep.load = some (PyAttr.callableV f)) := by
  induction eps generalizing acc with
  | nil => simp
  | cons ep rest ih =>
    simp only [List.foldl_cons]
    rw [ih]
    cases hload : ep.load with
    | none => simp [epStep, hload]
    | some attr =>
      cases attr with
      | notCallable => simp [epStep, hload]
      | callableV f =>
        simp only [epStep, hload]
        rw [dictGet_dictInsert_isSome]
        constructor
        · rintro ((h | h) | h)
          · exact Or.inr ⟨ep, by simp, h.symm, f, hload⟩
          · exact Or.inl h
          · obtain ⟨ep', hmem, hname, hf⟩ := h
            exact Or.inr ⟨ep', by simp [hmem], hname, hf⟩
        · rintro (h | ⟨ep', hmem, hname, hf⟩)
          · exact Or.inl (Or.inr h)
          · rcases List.mem_cons.mp hmem with heq | hmem'
            · subst heq; exact Or.inl (Or.inl hname.symm)
            · exact Or.inr ⟨ep', hmem', hname, hf⟩

/-- C9: the discovered renderer dict holds an entry for a name exactly when
some entry point of that name loads without raising to a callable value; an
entry point whose load raises, or whose value is not callable, contributes
nothing, and discovery itself never fails (it is a total function of the
entry-point listing). -/
theorem spec_C9 {R : Type} (eps : List (EntryPointM R)) (n : String) :
    (∃ f, dictGet (loadEntryPointRenderers (some eps)) n = some f) ↔
      ∃ ep ∈ eps, ep.name = n ∧ ∃ f, ep.load = some (PyAttr.callableV f) := by
  unfold loadEntryPointRenderers
  rw [epFold_get]
  simp [dictGet]

/-! Claim C10: the single exception type. -/

/-- C10: FigError is the one failure type of the orchestrator and carries
only message text, so two errors are equal exactly when their messages are;
in particular the taxonomy names are not distinct types: a ValidationError
(from _validate_json on a multi node without "figures") and the runtime
failure of Fig.multi on the same node are the very same FigError value. -/
theorem spec_C10 :
    (∀ a b : FigError, a = b ↔ a.msg = b.msg) ∧
    validateJson (JValue.obj [("1", JValue.obj
      [("type", JValue.str "multi"), ("row", JValue.int 1),
       ("column", JValue.int 1)])]) = .error (figErrMultiNoFigures "1") ∧
    (multiRun sampleState "1" (JValue.obj [("type", JValue.str "multi")])
      [] []).2 = .error (figErrMultiNoFigures "1") := by
  refine ⟨?_, by rfl, by rfl⟩
  intro a b
  constructor
  · intro h; rw [h]
  · intro h; cases a; cases b; simpa using h

/-! Claim C3: the concrete full build over the sample tree. -/

/-- C3: on the tree with simple entry "1" and multi entry "2" (row 1,
column 2, children "2a", "2b") and a registered renderer for type "a" that
always writes its artifact, the full build invokes the renderer for "1",
"2a", "2b" in that order, produces fig1.pdf, fig2a.pdf, fig2b.pdf, the
composite fig2.pdf and the concatenated deliverable figures.pdf, and the
ResultsMap holds exactly the keys "1", "2a", "2b" — none for the multi
parent "2". -/
theorem spec_C3 :
    createPdf sampleState sampleTree none [] =
      ([Event.render "1", Event.render "2a", Event.render "2b",
        Event.concatCall .multiComposite ["out/fig2a.pdf", "out/fig2b.pdf"]
          "out/fig2.pdf" 2 1,
        Event.concatCall .finalDeliverable ["out/fig1.pdf", "out/fig2.pdf"]
          "out/figures.pdf" 1 1],
       .ok (["out/fig1.pdf", "out/fig2a.pdf", "out/fig2b.pdf", "out/fig2.pdf",
             "out/figures.pdf"],
            [("1", "res1"), ("2a", "res2a"), ("2b", "res2b")])) := by rfl

/-! Claim C1: the validation acceptance condition. -/

lemma subStep (idx k : String) (sub : JValue) (rest : List (String × JValue)) :
    (claimSubOk sub = true ∧
      validateSubs idx ((k, sub) :: rest) = validateSubs idx rest) ∨
    (claimSubOk sub = false ∧
      (validateSubs idx ((k, sub) :: rest) = .error (figErrSubNotObj idx k) ∨
       validateSubs idx ((k, sub) :: rest) = .error (figErrSubNoType idx k))) := by
  cases sub with
  | obj entries =>
    cases hty : jGet (JValue.obj entries) "type" with
    | some tv =>
      cases tv with
      | str s =>
        left
        exact ⟨by simp [claimSubOk, isObjB, typeFieldIsStr, hty],
               by simp [validateSubs, hty]⟩
      | null =>
        right
        exact ⟨by simp [claimSubOk, isObjB, typeFieldIsStr, hty],
               Or.inr (by simp [validateSubs, hty])⟩
      | bool b =>
        right
        exact ⟨by simp [claimSubOk, isObjB, typeFieldIsStr, hty],
               Or.inr (by simp [validateSubs, hty])⟩
      | int n =>
        right
        exact ⟨by simp [claimSubOk, isObjB, typeFieldIsStr, hty],
               Or.inr (by simp [validateSubs, hty])⟩
      | arr elems =>
        right
        exact ⟨by simp [claimSubOk, isObjB, typeFieldIsStr, hty],
               Or.inr (by simp [validateSubs, hty])⟩
      | obj entries2 =>
        right
        exact ⟨by simp [claimSubOk, isObjB, typeFieldIsStr, hty],
               Or.inr (by simp [validateSubs, hty])⟩
    | none =>
      right
      exact ⟨by simp [claimSubOk, isObjB, typeFieldIsStr, hty],
             Or.inr (by simp [validateSubs, hty])⟩
  | null =>
    right
    exact ⟨by simp [claimSubOk, isObjB], Or.inl (by simp [validateSubs])⟩
  | bool b =>
    right
    exact ⟨by simp [claimSubOk, isObjB], Or.inl (by simp [validateSubs])⟩
  | int n =>
    right
    exact ⟨by simp [claimSubOk, isObjB], Or.inl (by simp [validateSubs])⟩
  | str s =>
    right
    exact ⟨by simp [claimSubOk, isObjB], Or.inl (by simp [validateSubs])⟩
  | arr elems =>
    right
    exact ⟨by simp [claimSubOk, isObjB], Or.inl (by simp [validateSubs])⟩

lemma validateSubs_cases (idx : String) (figs : List (String × JValue)) :
    (validateSubs idx figs = .ok () ∧
      figs.all (fun kv => claimSubOk kv.2) = true) ∨
    (∃ e, validateSubs idx figs = .error e ∧
      figs.all (fun kv => claimSubOk kv.2) = false ∧
      ((∃ k, e = figErrSubNotObj idx k) ∨ (∃ k, e = figErrSubNoType idx k))) := by
  induction figs with
  | nil => left; exact ⟨rfl, rfl⟩
  | cons hd rest ih =>
    obtain ⟨k, sub⟩ := hd
    rcases subStep idx k sub rest with ⟨hok, heq⟩ | ⟨hbad, herr⟩
    · rw [heq]
      rcases ih with ⟨h1, h2⟩ | ⟨e, h1, h2, h3⟩
      · left; exact ⟨h1, by simp [hok, h2]⟩
      · right; exact ⟨e, h1, by simp [h2], h3⟩
    · rcases herr with herr | herr
      · right
        exact ⟨figErrSubNotObj idx k, herr, by simp [hbad], Or.inl ⟨k, rfl⟩⟩
      · right
        exact ⟨figErrSubNoType idx k, herr, by simp [hbad], Or.inr ⟨k, rfl⟩⟩

lemma validateNode_cases (idx : String) (node : JValue) :
    (validateNode idx node = .ok () ∧ claimNodeOk node = true) ∨
    (∃ e, validateNode idx node = .error e ∧ claimNodeOk node = false ∧
      errNamesFigure e idx) := by
  cases node with
  | obj entries =>
    cases hty : jGet (JValue.obj entries) "type" with
    | some tv =>
      cases tv with
      | str t =>
        by_cases hm : t = "multi"
        · subst hm
          cases hfig : jGet (JValue.obj entries) "figures" with
          | some fv =>
            cases fv with
            | obj figs =>
              rcases validateSubs_cases idx figs with
                ⟨hsub, hall⟩ | ⟨e, hsub, hall, hshape⟩
              · by_cases hrow : (jGet (JValue.obj entries) "row").isSome
                · by_cases hcol : (jGet (JValue.obj entries) "column").isSome
                  · left
                    refine ⟨?_, ?_⟩
                    · simp [validateNode, hty, hfig, hsub, validateRowCol,
                        hrow, hcol]
                    · simp [claimNodeOk, isObjB, typeFieldIsStr, typeIsMulti,
                        hty, claimFiguresOk, hfig, hall, hrow, hcol]
                  · right
                    refine ⟨figErrMultiRequires idx "column", ?_, ?_,
                      Or.inr (Or.inr (Or.inr (Or.inr (Or.inr
                        ⟨"column", rfl⟩))))⟩
                    · simp [validateNode, hty, hfig, hsub, validateRowCol,
                        hrow, hcol]
                    · simp [claimNodeOk, isObjB, typeFieldIsStr, typeIsMulti,
                        hty, claimFiguresOk, hfig, hall, hrow, hcol]
                · right
                  refine ⟨figErrMultiRequires idx "row", ?_, ?_,
                    Or.inr (Or.inr (Or.inr (Or.inr (Or.inr ⟨"row", rfl⟩))))⟩
                  · simp [validateNode, hty, hfig, hsub, validateRowCol, hrow]
                  · simp [claimNodeOk, isObjB, typeFieldIsStr, typeIsMulti,
                      hty, claimFiguresOk, hfig, hall, hrow]
              · right
                refine ⟨e, ?_, ?_, ?_⟩
                · simp [validateNode, hty, hfig, hsub]
                · simp [claimNodeOk, isObjB, typeFieldIsStr, typeIsMulti,
                    hty, claimFiguresOk, hfig, hall]
                · rcases hshape with ⟨k, rfl⟩ | ⟨k, rfl⟩
                  · exact Or.inr (Or.inr (Or.inr (Or.inl ⟨k, rfl⟩)))
                  · exact Or.inr (Or.inr (Or.inr (Or.inr (Or.inl ⟨k, rfl⟩))))
            | null =>
              right
              refine ⟨figErrMultiNoFigures idx, ?_, ?_,
                Or.inr (Or.inr (Or.inl rfl))⟩
              · simp [validateNode, hty, hfig]
              · simp [claimNodeOk, isObjB, typeFieldIsStr, typeIsMulti, hty,
                  claimFiguresOk, hfig]
            | bool b =>
              right
              refine ⟨figErrMultiNoFigures idx, ?_, ?_,
                Or.inr (Or.inr (Or.inl rfl))⟩
              · simp [validateNode, hty, hfig]
              · simp [claimNodeOk, isObjB, typeFieldIsStr, typeIsMulti, hty,
                  claimFiguresOk, hfig]
            | int n =>
              right
              refine ⟨figErrMultiNoFigures idx, ?_, ?_,
                Or.inr (Or.inr (Or.inl rfl))⟩
              · simp [validateNode, hty, hfig]
              · simp [claimNodeOk, isObjB, typeFieldIsStr, typeIsMulti, hty,
                  claimFiguresOk, hfig]
            | str s =>
              right
              refine ⟨figErrMultiNoFigures idx, ?_, ?_,
                Or.inr (Or.inr (Or.inl rfl))⟩
              · simp [validateNode, hty, hfig]
              · simp [claimNodeOk, isObjB, typeFieldIsStr, typeIsMulti, hty,
                  claimFiguresOk, hfig]
            | arr elems =>
              right
              refine ⟨figErrMultiNoFigures idx, ?_, ?_,
                Or.inr (Or.inr (Or.inl rfl))⟩
              · simp [validateNode, hty, hfig]
              · simp [claimNodeOk, isObjB, typeFieldIsStr, typeIsMulti, hty,
                  claimFiguresOk, hfig]
          | none =>
            right
            refine ⟨figErrMultiNoFigures idx, ?_, ?_,
              Or.inr (Or.inr (Or.inl rfl))⟩
            · simp [validateNode, hty, hfig]
            · simp [claimNodeOk, isObjB, typeFieldIsStr, typeIsMulti, hty,
                claimFiguresOk, hfig]
        · left
          refine ⟨by simp [validateNode, hty, hm], ?_⟩
          simp [claimNodeOk, isObjB, typeFieldIsStr, typeIsMulti, hty, hm]
      | null =>
        right
        exact ⟨figErrNoTypeField idx, by simp [validateNode, hty],
          by simp [claimNodeOk, isObjB, typeFieldIsStr, hty],
          Or.inr (Or.inl rfl)⟩
      | bool b =>
        right
        exact ⟨figErrNoTypeField idx, by simp [validateNode, hty],
          by simp [claimNodeOk, isObjB, typeFieldIsStr, hty],
          Or.inr (Or.inl rfl)⟩
      | int n =>
        right
        exact ⟨figErrNoTypeField idx, by simp [validateNode, hty],
          by simp [claimNodeOk, isObjB, typeFieldIsStr, hty],
          Or.inr (Or.inl rfl)⟩
      | arr elems =>
        right
        exact ⟨figErrNoTypeField idx, by simp [validateNode, hty],
          by simp [claimNodeOk, isObjB, typeFieldIsStr, hty],
          Or.inr (Or.inl rfl)⟩
      | obj entries2 =>
        right
        exact ⟨figErrNoTypeField idx, by simp [validateNode, hty],
          by simp [claimNodeOk, isObjB, typeFieldIsStr, hty],
          Or.inr (Or.inl rfl)⟩
    | none =>
      right
      exact ⟨figErrNoTypeField idx, by simp [validateNode, hty],
        by simp [claimNodeOk, isObjB, typeFieldIsStr, hty],
        Or.inr (Or.inl rfl)⟩
  | null =>
    right
    exact ⟨figErrNodeNotObj idx, by simp [validateNode],
      by simp [claimNodeOk, isObjB], Or.inl rfl⟩
  | bool b =>
    right
    exact ⟨figErrNodeNotObj idx, by simp [validateNode],
      by simp [claimNodeOk, isObjB], Or.inl rfl⟩
  | int n =>
    right
    exact ⟨figErrNodeNotObj idx, by simp [validateNode],
      by simp [claimNodeOk, isObjB], Or.inl rfl⟩
  | str s =>
    right
    exact ⟨figErrNodeNotObj idx, by simp [validateNode],
      by simp [claimNodeOk, isObjB], Or.inl rfl⟩
  | arr elems =>
    right
    exact ⟨figErrNodeNotObj idx, by simp [validateNode],
      by simp [claimNodeOk, isObjB], Or.inl rfl⟩

lemma validateEntries_cases (entries : List (String × JValue)) :
    (validateEntries entries = .ok () ∧
      entries.all (fun kv => claimNodeOk kv.2) = true) ∨
    (∃ e idx node, validateEntries entries = .error e ∧
      (idx, node) ∈ entries ∧ claimNodeOk node = false ∧
      errNamesFigure e idx ∧
      entries.all (fun kv => claimNodeOk kv.2) = false) := by
  induction entries with
  | nil => left; exact ⟨rfl, rfl⟩
  | cons hd rest ih =>
    obtain ⟨idx, node⟩ := hd
    rcases validateNode_cases idx node with ⟨hok, hcl⟩ | ⟨e, herr, hcl, hname⟩
    · have hstep : validateEntries ((idx, node) :: rest) =
          validateEntries rest := by
        simp [validateEntries, hok]
      rcases ih with ⟨h1, h2⟩ | ⟨e, i, n, h1, hmem, h3, h4, h5⟩
      · left
        exact ⟨by rw [hstep]; exact h1, by simp [hcl, h2]⟩
      · right
        exact ⟨e, i, n, by rw [hstep]; exact h1, by simp [hmem], h3, h4,
               by simp [h5]⟩
    · right
      refine ⟨e, idx, node, ?_, by simp, hcl, hname, by simp [hcl]⟩
      simp [validateEntries, herr]

/-- C1: _validate_json accepts a document exactly when the root is a
mapping and every top-level node satisfies the claim's per-node condition
(an object with a string "type"; for type "multi" additionally a "figures"
object of objects with string "type" and both keys "row" and "column"
present); and every rejection is either the root error or an error that
identifies a top-level figure id whose node violates that condition. -/
theorem spec_C1 (t : JValue) :
    (validateJson t = .ok () ↔ claimAccepts t = true) ∧
    (∀ e, validateJson t = .error e →
      e = figErrRootNotObj ∨
      ∃ entries idx node, t = .obj entries ∧ (idx, node) ∈ entries ∧
        claimNodeOk node = false ∧ errNamesFigure e idx) := by
  cases t with
  | obj entries =>
    have hdef : validateJson (JValue.obj entries) = validateEntries entries :=
      rfl
    rcases validateEntries_cases entries with
      ⟨h1, h2⟩ | ⟨e, i, n, h1, hmem, h3, h4, h5⟩
    · refine ⟨⟨fun _ => by simpa [claimAccepts] using h2,
        fun _ => by rw [hdef]; exact h1⟩, ?_⟩
      intro e' he'
      rw [hdef, h1] at he'
      cases he'
    · constructor
      · constructor
        · intro h
          rw [hdef, h1] at h
          cases h
        · intro h
          simp only [claimAccepts] at h
          rw [h] at h5
          cases h5
      · intro e' he'
        rw [hdef, h1] at he'
        have he2 : e = e' := by
          injection he'
        subst he2
        exact Or.inr ⟨entries, i, n, rfl, hmem, h3, h4⟩
  | null =>
    refine ⟨⟨fun h => by simp [validateJson] at h,
      fun h => by simp [claimAccepts] at h⟩, ?_⟩
    intro e he
    simp only [validateJson] at he
    injection he with he2
    exact Or.inl he2.symm
  | bool b =>
    refine ⟨⟨fun h => by simp [validateJson] at h,
      fun h => by simp [claimAccepts] at h⟩, ?_⟩
    intro e he
    simp only [validateJson] at he
    injection he with he2
    exact Or.inl he2.symm
  | int n =>
    refine ⟨⟨fun h => by simp [validateJson] at h,
      fun h => by simp [claimAccepts] at h⟩, ?_⟩
    intro e he
    simp only [validateJson] at he
    injection he with he2
    exact Or.inl he2.symm
  | str s =>
    refine ⟨⟨fun h => by simp [validateJson] at h,
      fun h => by simp [claimAccepts] at h⟩, ?_⟩
    intro e he
    simp only [validateJson] at he
    injection he with he2
    exact Or.inl he2.symm
  | arr elems =>
    refine ⟨⟨fun h => by simp [validateJson] at h,
      fun h => by simp [claimAccepts] at h⟩, ?_⟩
    intro e he
    simp only [validateJson] at he
    injection he with he2
    exact Or.inl he2.symm

/-- Witness for C1: the rejection of a tree whose node "1" has no "type"
identifies figure "1". -/
theorem spec_C1_witness :
    figErrNoTypeField "1" = figErrRootNotObj ∨
    ∃ entries idx node,
      JValue.obj [("1", JValue.obj [("title", JValue.str "x")])] =
        JValue.obj entries ∧ (idx, node) ∈ entries ∧
      claimNodeOk node = false ∧ errNamesFigure (figErrNoTypeField "1") idx :=
  (spec_C1 (JValue.obj [("1", JValue.obj [("title", JValue.str "x")])])).2
    (figErrNoTypeField "1") (by rfl)

/-! Loop decomposition and trace lemmas for the composition engine. -/

lemma goEntries_append {R : Type} (st : FigState R) (ia : Option String)
    (l₁ l₂ : List (String × JValue)) (fs : FS) (res : Results R)
    (pages : List String) (tr : Trace) :
    goEntries st ia (l₁ ++ l₂) fs res pages tr =
      match goEntries st ia l₁ fs res pages tr with
      | (tr', .error e) => (tr', .error e)
      | (tr', .ok (fs', res', pages')) =>
          goEntries st ia l₂ fs' res' pages' tr' := by
  induction l₁ generalizing fs res pages tr with
  | nil => simp [goEntries]
  | cons hd rest ih =>
    obtain ⟨idx, data⟩ := hd
    by_cases h : skipEntry ia idx = true
    · simp only [List.cons_append, goEntries, h, if_true]
      exact ih fs res pages tr
    · simp only [List.cons_append, goEntries, h, if_false]
      rcases hst : stepEntry st idx data fs res pages tr with ⟨tr', r⟩
      cases r with
      | error e => rfl
      | ok s =>
        obtain ⟨fs', res', pages'⟩ := s
        exact ih fs' res' pages' tr'

lemma goEntries_skip_all {R : Type} (st : FigState R) (ia : Option String)
    (l : List (String × JValue)) (fs : FS) (res : Results R)
    (pages : List String) (tr : Trace)
    (h : ∀ p ∈ l, skipEntry ia p.1 = true) :
    goEntries st ia l fs res pages tr = (tr, .ok (fs, res, pages)) := by
  induction l generalizing fs res pages tr with
  | nil => rfl
  | cons hd rest ih =>
    obtain ⟨idx, data⟩ := hd
    have hskip : skipEntry ia idx = true := h (idx, data) (by simp)
    simp only [goEntries, hskip, if_true]
    exact ih fs res pages tr (fun p hp => h p (by simp [hp]))

lemma multiSubs_append {R : Type} (st : FigState R) (parent : String)
    (l₁ l₂ : List (String × JValue)) (fs : FS) (res : Results R)
    (files : List String) (tr : Trace) :
    multiSubs st parent (l₁ ++ l₂) fs res files tr =
      match multiSubs st parent l₁ fs res files tr with
      | (tr', .error e) => (tr', .error e)
      | (tr', .ok (fs', res', files')) =>
          multiSubs st parent l₂ fs' res' files' tr' := by
  induction l₁ generalizing fs res files tr with
  | nil => simp [multiSubs]
  | cons hd rest ih =>
    obtain ⟨idx, data⟩ := hd
    simp only [List.cons_append, multiSubs]
    rcases hst : stepSub st parent idx data fs res files tr with ⟨tr', r⟩
    cases r with
    | error e => rfl
    | ok s =>
      obtain ⟨fs', res', files'⟩ := s
      exact ih fs' res' files' tr'

lemma stepSub_trace {R : Type} (st : FigState R) (parent idx : String)
    (data : JValue) (fs : FS) (res : Results R) (files : List String)
    (tr : Trace) :
    ∃ d, (stepSub st parent idx data fs res files tr).1 = tr ++ d ∧
      ∀ ev ∈ d, isFinalConcat ev = false := by
  cases h1 : jGet data "type"
  case none => exact ⟨[], by simp [stepSub, h1], by simp⟩
  case some tv =>
    cases tv
    case str t =>
      cases h2 : resolveRenderer st t with
      | error e => exact ⟨[], by simp [stepSub, h1, h2], by simp⟩
      | ok ro =>
        cases ro with
        | none => exact ⟨[], by simp [stepSub, h1, h2], by simp⟩
        | some r =>
          by_cases h3 :
            expectedPath st.figDir idx ∈ (r.run idx data st.verbose fs).1
          · exact ⟨[Event.render idx], by simp [stepSub, h1, h2, h3],
              by simp [isFinalConcat]⟩
          · exact ⟨[Event.render idx], by simp [stepSub, h1, h2, h3],
              by simp [isFinalConcat]⟩
    all_goals exact ⟨[], by simp [stepSub, h1], by simp⟩

lemma multiSubs_trace {R : Type} (st : FigState R) (parent : String)
    (l : List (String × JValue)) (fs : FS) (res : Results R)
    (files : List String) (tr : Trace) :
    ∃ d, (multiSubs st parent l fs res files tr).1 = tr ++ d ∧
      ∀ ev ∈ d, isFinalConcat ev = false := by
  induction l generalizing fs res files tr with
  | nil => exact ⟨[], by simp [multiSubs], by simp⟩
  | cons hd rest ih =>
    obtain ⟨idx, data⟩ := hd
    obtain ⟨d, hd1, hd2⟩ := stepSub_trace st parent idx data fs res files tr
    rcases hst : stepSub st parent idx data fs res files tr with ⟨tr', r⟩
    rw [hst] at hd1
    simp only at hd1
    cases r with
    | error e =>
      refine ⟨d, ?_, hd2⟩
      simp only [multiSubs, hst]
      exact hd1
    | ok s =>
      obtain ⟨fs', res', files'⟩ := s
      obtain ⟨d2, hd21, hd22⟩ := ih fs' res' files' tr'
      refine ⟨d ++ d2, ?_, ?_⟩
      · simp only [multiSubs, hst]
        rw [hd21, hd1, List.append_assoc]
      · intro ev hev
        rcases List.mem_append.mp hev with h | h
        · exact hd2 ev h
        · exact hd22 ev h

lemma multiRun_trace {R : Type} (st : FigState R) (parent : String)
    (fig : JValue) (fs : FS) (tr : Trace) :
    ∃ d, (multiRun st parent fig fs tr).1 = tr ++ d ∧
      ∀ ev ∈ d, isFinalConcat ev = false := by
  cases h1 : jGet fig "figures"
  case none => exact ⟨[], by simp [multiRun, h1], by simp⟩
  case some fv =>
    cases fv
    case obj figs =>
      by_cases h2 : (pyIsIntOpt (jGet fig "row") &&
          pyIsIntOpt (jGet fig "column")) = true
      · obtain ⟨d, hd1, hd2⟩ := multiSubs_trace st parent figs fs [] [] tr
        rcases hms : multiSubs st parent figs fs [] [] tr with ⟨tr', r⟩
        rw [hms] at hd1
        simp only at hd1
        cases r with
        | error e =>
          refine ⟨d, ?_, hd2⟩
          simp only [multiRun, h1, h2, if_true, hms]
          exact hd1
        | ok s =>
          obtain ⟨fs', res, files⟩ := s
          refine ⟨d ++ [Event.concatCall .multiComposite files
            (expectedPath st.figDir parent) (pyToInt (jGet fig "column"))
            (pyToInt (jGet fig "row"))], ?_, ?_⟩
          · cases hc : st.concat.run files (expectedPath st.figDir parent)
                (pyToInt (jGet fig "column")) (pyToInt (jGet fig "row")) fs' with
            | error ex =>
              simp only [multiRun, h1, h2, if_true, hms, hc]
              rw [hd1, List.append_assoc]
            | ok fs'' =>
              simp only [multiRun, h1, h2, if_true, hms, hc]
              rw [hd1, List.append_assoc]
          · intro ev hev
            rcases List.mem_append.mp hev with h | h
            · exact hd2 ev h
            · simp only [List.mem_singleton] at h
              subst h
              rfl
      · exact ⟨[], by simp [multiRun, h1, h2], by simp⟩
    all_goals exact ⟨[], by simp [multiRun, h1], by simp⟩

lemma stepEntry_trace {R : Type} (st : FigState R) (idx : String)
    (data : JValue) (fs : FS) (res : Results R) (pages : List String)
    (tr : Trace) :
    ∃ d, (stepEntry st idx data fs res pages tr).1 = tr ++ d ∧
      ∀ ev ∈ d, isFinalConcat ev = false := by
  cases h1 : jGet data "type"
  case none => exact ⟨[], by simp [stepEntry, h1], by simp⟩
  case some tv =>
    cases tv
    case str t =>
      by_cases hm : t = "multi"
      · subst hm
        obtain ⟨d, hd1, hd2⟩ := multiRun_trace st idx data fs tr
        rcases hmr : multiRun st idx data fs tr with ⟨tr', r⟩
        rw [hmr] at hd1
        simp only at hd1
        cases r with
        | error e =>
          refine ⟨d, ?_, hd2⟩
          simp only [stepEntry, h1, if_pos rfl, hmr]
          exact hd1
        | ok s =>
          obtain ⟨fs', mres⟩ := s
          refine ⟨d, ?_, hd2⟩
          by_cases h3 : expectedPath st.figDir idx ∈ fs'
          · simp only [stepEntry, h1, if_pos rfl, hmr, h3, if_true]
            exact hd1
          · simp only [stepEntry, h1, if_pos rfl, hmr, h3, if_false]
            exact hd1
      · cases h2 : resolveRenderer st t with
        | error e => exact ⟨[], by simp [stepEntry, h1, h2, hm], by simp⟩
        | ok ro =>
          cases ro with
          | none => exact ⟨[], by simp [stepEntry, h1, h2, hm], by simp⟩
          | some r =>
            by_cases h3 :
              expectedPath st.figDir idx ∈ (r.run idx data st.verbose fs).1
            · exact ⟨[Event.render idx], by simp [stepEntry, h1, h2, hm, h3],
                by simp [isFinalConcat]⟩
            · exact ⟨[Event.render idx], by simp [stepEntry, h1, h2, hm, h3],
                by simp [isFinalConcat]⟩
    all_goals exact ⟨[], by simp [stepEntry, h1], by simp⟩

lemma goEntries_trace {R : Type} (st : FigState R) (ia : Option String)
    (l : List (String × JValue)) (fs : FS) (res : Results R)
    (pages : List String) (tr : Trace) :
    ∃ d, (goEntries st ia l fs res pages tr).1 = tr ++ d ∧
      ∀ ev ∈ d, isFinalConcat ev = false := by
  induction l generalizing fs res pages tr with
  | nil => exact ⟨[], by simp [goEntries], by simp⟩
  | cons hd rest ih =>
    obtain ⟨idx, data⟩ := hd
    by_cases hsk : skipEntry ia idx = true
    · obtain ⟨d, hd1, hd2⟩ := ih fs res pages tr
      refine ⟨d, ?_, hd2⟩
      simp only [goEntries, hsk, if_true]
      exact hd1
    · obtain ⟨d, hd1, hd2⟩ := stepEntry_trace st idx data fs res pages tr
      rcases hst : stepEntry st idx data fs res pages tr with ⟨tr', r⟩
      rw [hst] at hd1
      simp only at hd1
      cases r with
      | error e =>
        refine ⟨d, ?_, hd2⟩
        simp only [goEntries, hsk, if_false, hst]
        exact hd1
      | ok s =>
        obtain ⟨fs', res', pages'⟩ := s
        obtain ⟨d2, hd21, hd22⟩ := ih fs' res' pages' tr'
        refine ⟨d ++ d2, ?_, ?_⟩
        · simp only [goEntries, hsk, if_false, hst]
          show (goEntries st ia rest fs' res' pages' tr').1 = tr ++ (d ++ d2)
          rw [hd21, hd1, List.append_assoc]
        · intro ev hev
          rcases List.mem_append.mp hev with h | h
          · exact hd2 ev h
          · exact hd22 ev h

/-! Claim C8: a single-target build. -/

/-- C8: a build restricted to an existing (nonempty-string) target id
processes exactly that entry — every other top-level entry is skipped —
produces its artifact, and the concatenation step for the final deliverable
is never performed. First conjunct: a simple target renders only itself,
stores only its result, and the trace holds no concatenation call at all.
Second conjunct: a multi target runs exactly its own composition (children
and the composite-page concatenation of Fig.multi), requires its composite
artifact, stores exactly the children's results, and the build returns
before the final concatenation — the trace holds no final-deliverable
call. -/
theorem spec_C8 {R : Type} :
    (∀ (st : FigState R) (pre post : List (String × JValue)) (tgt : String)
        (node : JValue) (t : String) (r : RendererM R) (fs fs' : FS) (v : R),
      tgt ≠ "" →
      (∀ p ∈ pre, p.1 ≠ tgt) → (∀ p ∈ post, p.1 ≠ tgt) →
      jGet node "type" = some (.str t) → t ≠ "multi" →
      resolveRenderer st t = .ok (some r) →
      r.run tgt node st.verbose fs = (fs', v) →
      expectedPath st.figDir tgt ∈ fs' →
      createPdf st (pre ++ (tgt, node) :: post) (some tgt) fs =
        ([Event.render tgt], .ok (fs', [(tgt, v)]))) ∧
    (∀ (st : FigState R) (pre post : List (String × JValue)) (tgt : String)
        (node : JValue) (fs fs' : FS) (mres : Results R) (tr₁ : Trace),
      tgt ≠ "" →
      (∀ p ∈ pre, p.1 ≠ tgt) → (∀ p ∈ post, p.1 ≠ tgt) →
      jGet node "type" = some (.str "multi") →
      multiRun st tgt node fs [] = (tr₁, .ok (fs', mres)) →
      expectedPath st.figDir tgt ∈ fs' →
      createPdf st (pre ++ (tgt, node) :: post) (some tgt) fs =
        (tr₁, .ok (fs',
          mres.foldl (fun acc kv => dictInsert acc kv.1 kv.2) [])) ∧
      ∀ ev ∈ tr₁, isFinalConcat ev = false) := by
  constructor
  · intro st pre post tgt node t r fs fs' v htgt hpre hpost htype hmulti hres
      hrun hart
    have hskpre : ∀ p ∈ pre, skipEntry (some tgt) p.1 = true := by
      intro p hp
      simp [skipEntry, htgt]
      exact (hpre p hp).symm
    have hskpost : ∀ p ∈ post, skipEntry (some tgt) p.1 = true := by
      intro p hp
      simp [skipEntry, htgt]
      exact (hpost p hp).symm
    have hstep : stepEntry st tgt node fs [] [] [] =
        ([Event.render tgt],
          .ok (fs', [(tgt, v)], [expectedPath st.figDir tgt])) := by
      simp only [stepEntry, htype]
      rw [if_neg hmulti]
      simp only [hres, hrun]
      rw [if_pos hart]
      simp [dictInsert, dictGet]
    have hmid : goEntries st (some tgt) ((tgt, node) :: post) fs [] [] [] =
        ([Event.render tgt],
          .ok (fs', [(tgt, v)], [expectedPath st.figDir tgt])) := by
      have hskt : ¬ skipEntry (some tgt) tgt = true := by
        simp [skipEntry]
      simp only [goEntries]
      rw [if_neg hskt, hstep]
      exact goEntries_skip_all st (some tgt) post fs' [(tgt, v)]
        [expectedPath st.figDir tgt] [Event.render tgt] hskpost
    have hgo : goEntries st (some tgt) (pre ++ (tgt, node) :: post)
        fs [] [] [] =
        ([Event.render tgt],
          .ok (fs', [(tgt, v)], [expectedPath st.figDir tgt])) := by
      rw [goEntries_append,
        goEntries_skip_all st (some tgt) pre fs [] [] [] hskpre]
      exact hmid
    unfold createPdf
    rw [hgo]
    simp [iaTruthy, htgt]
  · intro st pre post tgt node fs fs' mres tr₁ htgt hpre hpost htype hmr hart
    have hskpre : ∀ p ∈ pre, skipEntry (some tgt) p.1 = true := by
      intro p hp
      simp [skipEntry, htgt]
      exact (hpre p hp).symm
    have hskpost : ∀ p ∈ post, skipEntry (some tgt) p.1 = true := by
      intro p hp
      simp [skipEntry, htgt]
      exact (hpost p hp).symm
    have hstep : stepEntry st tgt node fs [] [] [] =
        (tr₁, .ok (fs',
          mres.foldl (fun acc kv => dictInsert acc kv.1 kv.2) [],
          [expectedPath st.figDir tgt])) := by
      simp only [stepEntry, htype, if_true]
      rw [hmr]
      simp [hart]
    have hmid : goEntries st (some tgt) ((tgt, node) :: post) fs [] [] [] =
        (tr₁, .ok (fs',
          mres.foldl (fun acc kv => dictInsert acc kv.1 kv.2) [],
          [expectedPath st.figDir tgt])) := by
      have hskt : ¬ skipEntry (some tgt) tgt = true := by
        simp [skipEntry]
      simp only [goEntries]
      rw [if_neg hskt, hstep]
      exact goEntries_skip_all st (some tgt) post fs'
        (mres.foldl (fun acc kv => dictInsert acc kv.1 kv.2) [])
        [expectedPath st.figDir tgt] tr₁ hskpost
    have hgo : goEntries st (some tgt) (pre ++ (tgt, node) :: post)
        fs [] [] [] =
        (tr₁, .ok (fs',
          mres.foldl (fun acc kv => dictInsert acc kv.1 kv.2) [],
          [expectedPath st.figDir tgt])) := by
      rw [goEntries_append,
        goEntries_skip_all st (some tgt) pre fs [] [] [] hskpre]
      exact hmid
    constructor
    · unfold createPdf
      rw [hgo]
      simp [iaTruthy, htgt]
    · obtain ⟨d, hd1, hd2⟩ := multiRun_trace st tgt node fs []
      rw [hmr] at hd1
      simp only [List.nil_append] at hd1
      intro ev hev
      exact hd2 ev (hd1 ▸ hev)

/-- Witness for C8, both conjuncts: targeting the simple entry "1" in a
three-entry tree renders only "1" and performs no concatenation; targeting
the multi entry "2" in a two-entry tree renders only its children "2a" and
"2b", runs only the composite concatenation producing fig2.pdf, stores
exactly the children's results, and no final-deliverable concatenation
appears in the trace. -/
theorem spec_C8_witness :
    (createPdf sampleState
      ([("0", JValue.obj [("type", JValue.str "a")])] ++
        ("1", JValue.obj [("type", JValue.str "a")]) ::
        [("9", JValue.obj [("type", JValue.str "a")])])
      (some "1") [] =
      ([Event.render "1"], .ok (["out/fig1.pdf"], [("1", "res1")]))) ∧
    ((createPdf sampleState
      ([("1", JValue.obj [("type", JValue.str "a")])] ++
        ("2", JValue.obj [("type", JValue.str "multi"),
          ("row", JValue.int 1), ("column", JValue.int 2),
          ("figures", JValue.obj
            [("2a", JValue.obj [("type", JValue.str "a")]),
             ("2b", JValue.obj [("type", JValue.str "a")])])]) :: [])
      (some "2") [] =
      ([Event.render "2a", Event.render "2b",
        Event.concatCall .multiComposite ["out/fig2a.pdf", "out/fig2b.pdf"]
          "out/fig2.pdf" 2 1],
       .ok (["out/fig2a.pdf", "out/fig2b.pdf", "out/fig2.pdf"],
         [("2a", "res2a"), ("2b", "res2b")]))) ∧
    ∀ ev ∈ ([Event.render "2a", Event.render "2b",
        Event.concatCall ConcatSite.multiComposite
          ["out/fig2a.pdf", "out/fig2b.pdf"] "out/fig2.pdf" 2 1] : Trace),
      isFinalConcat ev = false) :=
  ⟨(spec_C8 (R := String)).1 sampleState
    [("0", JValue.obj [("type", JValue.str "a")])]
    [("9", JValue.obj [("type", JValue.str "a")])] "1"
    (JValue.obj [("type", JValue.str "a")]) "a" sampleRenderer []
    ["out/fig1.pdf"] "res1" (by decide)
    (by intro p hp; simp at hp; subst hp; decide)
    (by intro p hp; simp at hp; subst hp; decide)
    (by rfl) (by decide) (by rfl) (by rfl) (by decide),
   (spec_C8 (R := String)).2 sampleState
    [("1", JValue.obj [("type", JValue.str "a")])] [] "2"
    (JValue.obj [("type", JValue.str "multi"),
      ("row", JValue.int 1), ("column", JValue.int 2),
      ("figures", JValue.obj
        [("2a", JValue.obj [("type", JValue.str "a")]),
         ("2b", JValue.obj [("type", JValue.str "a")])])])
    [] ["out/fig2a.pdf", "out/fig2b.pdf", "out/fig2.pdf"]
    [("2a", "res2a"), ("2b", "res2b")]
    [Event.render "2a", Event.render "2b",
      Event.concatCall ConcatSite.multiComposite
        ["out/fig2a.pdf", "out/fig2b.pdf"] "out/fig2.pdf" 2 1]
    (by decide)
    (by intro p hp; simp at hp; subst hp; decide)
    (by simp)
    (by rfl) (by rfl) (by decide)⟩

/-! Claim C7: a renderer that does not write its artifact aborts the build
with the missing-artifact error, whose message embeds the artifact path
fig&lt;id&gt;.pdf and with it the figure id, and the final-deliverable
concatenation is never invoked. The first part covers a top-level simple
entry (the check in create_pdf), the second a sub-figure of a multi entry
(the check in Fig.multi). -/

/-- C7: in a full build, an entry (top-level, or a sub-figure of a multi
entry) whose resolved renderer returns without the expected artifact
fig&lt;id&gt;.pdf existing makes the build fail with the missing-artifact
FigError naming that id through its artifact path, and the trace of the
aborted build contains no final-deliverable concatenation call. -/
theorem spec_C7 {R : Type} :
    (∀ (st : FigState R) (pre post : List (String × JValue)) (idx : String)
        (node : JValue) (t : String) (r : RendererM R) (fs : FS)
        (tr₀ : Trace) (fs₀ : FS) (res₀ : Results R) (pages₀ : List String),
      goEntries st none pre fs [] [] [] = (tr₀, .ok (fs₀, res₀, pages₀)) →
      jGet node "type" = some (.str t) → t ≠ "multi" →
      resolveRenderer st t = .ok (some r) →
      expectedPath st.figDir idx ∉ (r.run idx node st.verbose fs₀).1 →
      createPdf st (pre ++ (idx, node) :: post) none fs =
        (tr₀ ++ [Event.render idx],
          .error (figErrArtifactNotFound (expectedPath st.figDir idx))) ∧
      ∀ ev ∈ tr₀ ++ [Event.render idx], isFinalConcat ev = false) ∧
    (∀ (st : FigState R) (pre post : List (String × JValue)) (idx : String)
        (node : JValue) (spre spost : List (String × JValue)) (k : String)
        (sub : JValue) (t : String) (r : RendererM R) (fs : FS)
        (tr₀ tr₁ : Trace) (fs₀ sfs : FS) (res₀ sres : Results R)
        (pages₀ : List String) (sfiles : List String),
      goEntries st none pre fs [] [] [] = (tr₀, .ok (fs₀, res₀, pages₀)) →
      jGet node "type" = some (.str "multi") →
      jGet node "figures" = some (.obj (spre ++ (k, sub) :: spost)) →
      pyIsIntOpt (jGet node "row") = true →
      pyIsIntOpt (jGet node "column") = true →
      multiSubs st idx spre fs₀ [] [] tr₀ = (tr₁, .ok (sfs, sres, sfiles)) →
      jGet sub "type" = some (.str t) →
      resolveRenderer st t = .ok (some r) →
      expectedPath st.figDir k ∉ (r.run k sub st.verbose sfs).1 →
      createPdf st (pre ++ (idx, node) :: post) none fs =
        (tr₁ ++ [Event.render k],
          .error (figErrSubArtifactNotFound (expectedPath st.figDir k))) ∧
      ∀ ev ∈ tr₁ ++ [Event.render k], isFinalConcat ev = false) := by
  constructor
  · intro st pre post idx node t r fs tr₀ fs₀ res₀ pages₀ hpre htype hm hres
      hart
    have hstep : stepEntry st idx node fs₀ res₀ pages₀ tr₀ =
        (tr₀ ++ [Event.render idx],
          .error (figErrArtifactNotFound (expectedPath st.figDir idx))) := by
      simp only [stepEntry, htype]
      rw [if_neg hm]
      simp only [hres]
      rw [if_neg hart]
    have hgo : goEntries st none (pre ++ (idx, node) :: post) fs [] [] [] =
        (tr₀ ++ [Event.render idx],
          .error (figErrArtifactNotFound (expectedPath st.figDir idx))) := by
      rw [goEntries_append, hpre]
      show goEntries st none ((idx, node) :: post) fs₀ res₀ pages₀ tr₀ = _
      have hskipn : ¬ skipEntry none idx = true := by simp [skipEntry]
      simp only [goEntries]
      rw [if_neg hskipn, hstep]
    constructor
    · unfold createPdf
      rw [hgo]
    · obtain ⟨d, hd1, hd2⟩ := goEntries_trace st none pre fs [] [] []
      rw [hpre] at hd1
      simp only [List.nil_append] at hd1
      intro ev hev
      rcases List.mem_append.mp hev with h | h
      · exact hd2 ev (hd1 ▸ h)
      · simp only [List.mem_singleton] at h
        subst h
        rfl
  · intro st pre post idx node spre spost k sub t r fs tr₀ tr₁ fs₀ sfs res₀
      sres pages₀ sfiles hpre htype hfigs hrow hcol hsubs hstype hres hart
    have hstepsub : stepSub st idx k sub sfs sres sfiles tr₁ =
        (tr₁ ++ [Event.render k],
          .error (figErrSubArtifactNotFound (expectedPath st.figDir k))) := by
      simp only [stepSub, hstype, hres]
      rw [if_neg hart]
    have hms : multiSubs st idx (spre ++ (k, sub) :: spost) fs₀ [] [] tr₀ =
        (tr₁ ++ [Event.render k],
          .error (figErrSubArtifactNotFound (expectedPath st.figDir k))) := by
      rw [multiSubs_append, hsubs]
      show multiSubs st idx ((k, sub) :: spost) sfs sres sfiles tr₁ = _
      simp only [multiSubs]
      rw [hstepsub]
    have hmr : multiRun st idx node fs₀ tr₀ =
        (tr₁ ++ [Event.render k],
          .error (figErrSubArtifactNotFound (expectedPath st.figDir k))) := by
      simp only [multiRun, hfigs, hrow, hcol, Bool.and_self, if_true]
      rw [hms]
    have hstep : stepEntry st idx node fs₀ res₀ pages₀ tr₀ =
        (tr₁ ++ [Event.render k],
          .error (figErrSubArtifactNotFound (expectedPath st.figDir k))) := by
      simp only [stepEntry, htype, if_true]
      rw [hmr]
    have hgo : goEntries st none (pre ++ (idx, node) :: post) fs [] [] [] =
        (tr₁ ++ [Event.render k],
          .error (figErrSubArtifactNotFound (expectedPath st.figDir k))) := by
      rw [goEntries_append, hpre]
      show goEntries st none ((idx, node) :: post) fs₀ res₀ pages₀ tr₀ = _
      have hskipn : ¬ skipEntry none idx = true := by simp [skipEntry]
      simp only [goEntries]
      rw [if_neg hskipn, hstep]
    constructor
    · unfold createPdf
      rw [hgo]
    · obtain ⟨d, hd1, hd2⟩ := goEntries_trace st none pre fs [] [] []
      rw [hpre] at hd1
      simp only [List.nil_append] at hd1
      obtain ⟨d2, hd21, hd22⟩ := multiSubs_trace st idx spre fs₀ [] [] tr₀
      rw [hsubs] at hd21
      simp only at hd21
      intro ev hev
      rcases List.mem_append.mp hev with h | h
      · rw [hd21] at h
        rcases List.mem_append.mp h with h2 | h2
        · exact hd2 ev (hd1 ▸ h2)
        · exact hd22 ev h2
      · simp only [List.mem_singleton] at h
        subst h
        rfl

/-- Witness for C7 at a concrete two-entry tree whose second entry's
renderer (type "b") writes nothing: the build aborts with the
missing-artifact error for "2" after rendering "1" and "2", with no
final concatenation in the trace. -/
theorem spec_C7_witness :
    createPdf sampleStateBad
      ([("1", JValue.obj [("type", JValue.str "a")])] ++
        ("2", JValue.obj [("type", JValue.str "b")]) :: []) none [] =
      ([Event.render "1"] ++ [Event.render "2"],
        .error (figErrArtifactNotFound
          (expectedPath sampleStateBad.figDir "2"))) ∧
    ∀ ev ∈ [Event.render "1"] ++ [Event.render "2"],
      isFinalConcat ev = false :=
  (spec_C7 (R := String)).1 sampleStateBad
    [("1", JValue.obj [("type", JValue.str "a")])] [] "2"
    (JValue.obj [("type", JValue.str "b")]) "b" silentRenderer []
    [Event.render "1"] ["out/fig1.pdf"] [("1", "res1")] ["out/fig1.pdf"]
    (by rfl) (by rfl) (by decide) (by rfl) (by decide)

end Paperfig
